import Mathlib

/-!
# Gesture lock: movement comparison and control loop

A shallow embedding of `src/main.cpp` (the Circuit Playground gesture lock).
`float` samples are idealised as exact rationals; the fixed-size arrays
`float x[SAMPLE_SIZE]` are functions on `Fin SAMPLE_SIZE`. The control loop is a
function on the globals that also returns the list of calls made to the board.
-/

namespace GestureLock

/-- Number of samples to record for each movement sequence (`#define SAMPLE_SIZE 50`). -/
abbrev SAMPLE_SIZE : Nat := 50

/-- Upper threshold for movement difference (`#define TOLERANCE_HIGH 7`). -/
def TOLERANCE_HIGH : ℚ := 7

/-- Lower threshold for movement difference (`#define TOLERANCE_LOW 4`). -/
def TOLERANCE_LOW : ℚ := 4

/-- Required match percentage for successful unlock (`#define SUCCESS_THRESHOLD 0.90`). -/
def SUCCESS_THRESHOLD : ℚ := 90 / 100

/-- Movement data for all three axes (`struct Movement`). -/
structure Movement where
  x : Fin SAMPLE_SIZE → ℚ
  y : Fin SAMPLE_SIZE → ℚ
  z : Fin SAMPLE_SIZE → ℚ

/-- Modelled from the spec: `abs` is not defined under src/ (the Arduino core supplies
it to `compareMovements`); the specification's combined distance takes the absolute
value of each difference of smoothed values. -/
def abs (x : ℚ) : ℚ := |x|

/-- The six moving averages declared at the top of the loop body of
`compareMovements`. -/
structure Averages where
  average1x : ℚ
  average2x : ℚ
  average1y : ℚ
  average2y : ℚ
  average1z : ℚ
  average2z : ℚ

/-- The if / else-if chain of `compareMovements` (lines 119-167) that fills the six
moving averages at loop index `i`. -/
def averages (arr1 arr2 : Movement) (i : Fin SAMPLE_SIZE) : Averages :=
  if h0 : i.val = 0 then
    { average1x := (arr1.x 0 + arr1.x 1 + arr1.x 2) / 3
      average2x := (arr2.x 0 + arr2.x 1 + arr2.x 2) / 3
      average1y := (arr1.y 0 + arr1.y 1 + arr1.y 2) / 3
      average2y := (arr2.y 0 + arr2.y 1 + arr2.y 2) / 3
      average1z := (arr1.z 0 + arr1.z 1 + arr1.z 2) / 3
      average2z := (arr2.z 0 + arr2.z 1 + arr2.z 2) / 3 }
  else if h1 : i.val = 1 then
    { average1x := (arr1.x 0 + arr1.x 1 + arr1.x 2 + arr1.x 3) / 4
      average2x := (arr2.x 0 + arr2.x 1 + arr2.x 2 + arr2.x 3) / 4
      average1y := (arr1.y 0 + arr1.y 1 + arr1.y 2 + arr1.y 3) / 4
      average2y := (arr2.y 0 + arr2.y 1 + arr2.y 2 + arr2.y 3) / 4
      average1z := (arr1.z 0 + arr1.z 1 + arr1.z 2 + arr1.z 3) / 4
      average2z := (arr2.z 0 + arr2.z 1 + arr2.z 2 + arr2.z 3) / 4 }
  else if h48 : i.val = 48 then
    { average1x := (arr1.x 46 + arr1.x 47 + arr1.x 48 + arr1.x 49) / 4
      average2x := (arr2.x 46 + arr2.x 47 + arr2.x 48 + arr2.x 49) / 4
      average1y := (arr1.y 46 + arr1.y 47 + arr1.y 48 + arr1.y 49) / 4
      average2y := (arr2.y 46 + arr2.y 47 + arr2.y 48 + arr2.y 49) / 4
      average1z := (arr1.z 46 + arr1.z 47 + arr1.z 48 + arr1.z 49) / 4
      average2z := (arr2.z 46 + arr2.z 47 + arr2.z 48 + arr2.z 49) / 4 }
  else if h49 : i.val = 49 then
    { average1x := (arr1.x 47 + arr1.x 48 + arr1.x 49) / 3
      average2x := (arr2.x 47 + arr2.x 48 + arr2.x 49) / 3
      average1y := (arr1.y 47 + arr1.y 48 + arr1.y 49) / 3
      average2y := (arr2.y 47 + arr2.y 48 + arr2.y 49) / 3
      average1z := (arr1.z 47 + arr1.z 48 + arr1.z 49) / 3
      average2z := (arr2.z 47 + arr2.z 48 + arr2.z 49) / 3 }
  else
    { average1x := (arr1.x i + arr1.x ⟨i.val - 1, by have hi : i.val < 50 := i.isLt; show _ < 50; omega⟩ + arr1.x ⟨i.val - 2, by have hi : i.val < 50 := i.isLt; show _ < 50; omega⟩ + arr1.x ⟨i.val + 1, by have hi : i.val < 50 := i.isLt; show _ < 50; omega⟩ + arr1.x ⟨i.val + 2, by have hi : i.val < 50 := i.isLt; show _ < 50; omega⟩) / 5
      average2x := (arr2.x i + arr2.x ⟨i.val - 1, by have hi : i.val < 50 := i.isLt; show _ < 50; omega⟩ + arr2.x ⟨i.val - 2, by have hi : i.val < 50 := i.isLt; show _ < 50; omega⟩ + arr2.x ⟨i.val + 1, by have hi : i.val < 50 := i.isLt; show _ < 50; omega⟩ + arr2.x ⟨i.val + 2, by have hi : i.val < 50 := i.isLt; show _ < 50; omega⟩) / 5
      average1y := (arr1.y i + arr1.y ⟨i.val - 1, by have hi : i.val < 50 := i.isLt; show _ < 50; omega⟩ + arr1.y ⟨i.val - 2, by have hi : i.val < 50 := i.isLt; show _ < 50; omega⟩ + arr1.y ⟨i.val + 1, by have hi : i.val < 50 := i.isLt; show _ < 50; omega⟩ + arr1.y ⟨i.val + 2, by have hi : i.val < 50 := i.isLt; show _ < 50; omega⟩) / 5
      average2y := (arr2.y i + arr2.y ⟨i.val - 1, by have hi : i.val < 50 := i.isLt; show _ < 50; omega⟩ + arr2.y ⟨i.val - 2, by have hi : i.val < 50 := i.isLt; show _ < 50; omega⟩ + arr2.y ⟨i.val + 1, by have hi : i.val < 50 := i.isLt; show _ < 50; omega⟩ + arr2.y ⟨i.val + 2, by have hi : i.val < 50 := i.isLt; show _ < 50; omega⟩) / 5
      average1z := (arr1.z i + arr1.z ⟨i.val - 1, by have hi : i.val < 50 := i.isLt; show _ < 50; omega⟩ + arr1.z ⟨i.val - 2, by have hi : i.val < 50 := i.isLt; show _ < 50; omega⟩ + arr1.z ⟨i.val + 1, by have hi : i.val < 50 := i.isLt; show _ < 50; omega⟩ + arr1.z ⟨i.val + 2, by have hi : i.val < 50 := i.isLt; show _ < 50; omega⟩) / 5
      average2z := (arr2.z i + arr2.z ⟨i.val - 1, by have hi : i.val < 50 := i.isLt; show _ < 50; omega⟩ + arr2.z ⟨i.val - 2, by have hi : i.val < 50 := i.isLt; show _ < 50; omega⟩ + arr2.z ⟨i.val + 1, by have hi : i.val < 50 := i.isLt; show _ < 50; omega⟩ + arr2.z ⟨i.val + 2, by have hi : i.val < 50 := i.isLt; show _ < 50; omega⟩) / 5 }

/-- The running values `score` and `dispDiff` of `compareMovements`. -/
structure Acc where
  score : ℚ
  dispDiff : ℚ

/-- The `num` of one loop iteration (lines 170-172): the sum over the three axes of
`abs` of the difference of the two moving averages. -/
def num (arr1 arr2 : Movement) (i : Fin SAMPLE_SIZE) : ℚ :=
  abs ((averages arr1 arr2 i).average1x - (averages arr1 arr2 i).average2x) +
  abs ((averages arr1 arr2 i).average1y - (averages arr1 arr2 i).average2y) +
  abs ((averages arr1 arr2 i).average1z - (averages arr1 arr2 i).average2z)

/-- One iteration of the `for` loop of `compareMovements` (lines 113-188). -/
def loopBody (arr1 arr2 : Movement) (acc : Acc) (i : Fin SAMPLE_SIZE) : Acc :=
  let dispDiff := acc.dispDiff + num arr1 arr2 i
  if num arr1 arr2 i > TOLERANCE_HIGH then
    { score := acc.score, dispDiff := dispDiff }
  else if num arr1 arr2 i ≤ TOLERANCE_LOW then
    { score := acc.score + 1, dispDiff := dispDiff }
  else
    { score := acc.score + 1 / 2, dispDiff := dispDiff }

/-- The whole `for (int i = 0; i < SAMPLE_SIZE; i++)` loop, started from
`score = 0`, `dispDiff = 0`. -/
def compareLoop (arr1 arr2 : Movement) : Acc :=
  (List.finRange SAMPLE_SIZE).foldl (loopBody arr1 arr2) { score := 0, dispDiff := 0 }

/-- The accumulated `dispDiff` after the loop (the first value of the debug output). -/
def totalDiff (arr1 arr2 : Movement) : ℚ := (compareLoop arr1 arr2).dispDiff

/-- The value `score / SAMPLE_SIZE` (the second value of the debug output, and the
left side of the second test of the final `if`). -/
def normalizedScore (arr1 arr2 : Movement) : ℚ := (compareLoop arr1 arr2).score / SAMPLE_SIZE

/-- The function `compareMovements`: 1 when both the displacement difference and the
match score meet the criteria, 0 otherwise. -/
def compareMovements (arr1 arr2 : Movement) : ℚ :=
  if (compareLoop arr1 arr2).dispDiff < 110 ∧
      (compareLoop arr1 arr2).score / SAMPLE_SIZE > SUCCESS_THRESHOLD then 1
  else 0

/-- The amount by which iteration `i` raises `score`: the loop body run from a zero
accumulator. -/
def contribution (arr1 arr2 : Movement) (i : Fin SAMPLE_SIZE) : ℚ :=
  (loopBody arr1 arr2 { score := 0, dispDiff := 0 } i).score

/-- The constant trace: every sample of every axis is `c`. -/
def constMovement (c : ℚ) : Movement :=
  { x := fun _ => c, y := fun _ => c, z := fun _ => c }

/-- The smoothing window of index `i` in the words of the specification, for N = 50. -/
def specWindow (i : Nat) : Finset Nat :=
  if i = 0 then {0, 1, 2}
  else if i = 1 then {0, 1, 2, 3}
  else if i = 48 then {46, 47, 48, 49}
  else if i = 49 then {47, 48, 49}
  else {i - 2, i - 1, i, i + 1, i + 2}

/-- The arithmetic mean of the samples of channel `ch` whose index lies in `w`. -/
def windowMean (w : Finset Nat) (ch : Fin SAMPLE_SIZE → ℚ) : ℚ :=
  (∑ j in Finset.univ.filter (fun j : Fin SAMPLE_SIZE => j.val ∈ w), ch j) / w.card

/-- The combined distance `d_i` in the words of the specification: the L1 distance
between the smoothed x, y, z values of the two traces at index `i`. -/
def specDistance (test key : Movement) (i : Fin SAMPLE_SIZE) : ℚ :=
  |windowMean (specWindow i.val) test.x - windowMean (specWindow i.val) key.x| +
  |windowMean (specWindow i.val) test.y - windowMean (specWindow i.val) key.y| +
  |windowMean (specWindow i.val) test.z - windowMean (specWindow i.val) key.z|

/-- A trace whose x samples are all `cx`, y samples all `cy` and z samples all `cz`. -/
def constXYZ (cx cy cz : ℚ) : Movement :=
  { x := fun _ => cx, y := fun _ => cy, z := fun _ => cz }

/-- The three axes of a `Movement`. -/
inductive Channel where
  | x
  | y
  | z
  deriving DecidableEq

/-- The sample array of one axis of a `Movement`. -/
def Movement.chan (m : Movement) : Channel → Fin SAMPLE_SIZE → ℚ
  | Channel.x => m.x
  | Channel.y => m.y
  | Channel.z => m.z

/-- A test trace whose x samples are all 2 except for a single 22 at index 25; y and z
are 0. Against the zero key it scores 47.5 points with a total difference of 120. -/
def spikeTest : Movement :=
  { x := fun j => if j.val = 25 then 22 else 2, y := fun _ => 0, z := fun _ => 0 }

/-- A test trace with x samples 1, 0, 0, ...; y and z are 0. -/
def stepTest : Movement :=
  { x := fun j => if j.val = 0 then 1 else 0, y := fun _ => 0, z := fun _ => 0 }

/-- A test trace with x samples 1, -1, 0, 0, ...; y and z are 0. At every index its
x sample is at least as far from 0 as that of `stepTest`. -/
def zigzagTest : Movement :=
  { x := fun j => if j.val = 0 then 1 else if j.val = 1 then -1 else 0,
    y := fun _ => 0, z := fun _ => 0 }

/-- A test trace with x sample 1 at index 0, -1 at index 10 and 0 elsewhere; y and z
are 0. -/
def bumpsTest : Movement :=
  { x := fun j => if j.val = 0 then 1 else if j.val = 10 then -1 else 0,
    y := fun _ => 0, z := fun _ => 0 }

/-- A test trace with x sample 2 at index 0, -2 at index 10 and 0 elsewhere; y and z
are 0. No smoothing window holds both index 0 and index 10. -/
def bumpsTestWide : Movement :=
  { x := fun j => if j.val = 0 then 2 else if j.val = 10 then -2 else 0,
    y := fun _ => 0, z := fun _ => 0 }

/-- The trace `k` with `c` added to every x sample; y and z are those of `k`. -/
def offsetX (k : Movement) (c : ℚ) : Movement :=
  { x := fun j => k.x j + c, y := k.y, z := k.z }

/-- The sample-wise sum of two traces. -/
def Movement.add (a c : Movement) : Movement :=
  { x := fun j => a.x j + c.x j, y := fun j => a.y j + c.y j, z := fun j => a.z j + c.z j }

/-! ### The board, the globals and the control loop -/

/-- The calls to the board that the program makes, recorded in the order in which it
makes them. -/
inductive Event where
  | setPixelColor (n r g b : Nat)
  | clearPixels
  | delay (ms : Nat)
  | motionX
  | motionY
  | motionZ
  | serialPrintln (v : ℚ)
  deriving DecidableEq

/-- The globals `lockMovement`, `testMovement` and `isLocked`, together with the number
of accelerometer readings taken so far: the sampler is a sequence of readings
`sensor : Nat → ℚ`, and the n-th call of `motionX`, `motionY` or `motionZ` returns
`sensor n`. -/
structure State where
  lockMovement : Movement
  testMovement : Movement
  isLocked : Bool
  reads : Nat

/-- The global that the reference parameter `movement` of `recordMovement` is bound to. -/
inductive Target where
  | lockMovement
  | testMovement
  deriving DecidableEq

/-- Reading through the reference. -/
def State.movement (s : State) : Target → Movement
  | Target.lockMovement => s.lockMovement
  | Target.testMovement => s.testMovement

/-- Writing through the reference. -/
def State.setMovement (s : State) (target : Target) (m : Movement) : State :=
  match target with
  | Target.lockMovement => { s with lockMovement := m }
  | Target.testMovement => { s with testMovement := m }

/-- The state at program start: the globals are zero-initialised and `isLocked = false`. -/
def initialState : State :=
  { lockMovement := constMovement 0, testMovement := constMovement 0, isLocked := false,
    reads := 0 }

/-- The function `blinkLED`: set pixel 0, wait, clear. -/
def blinkLED (r g b : Nat) (duration : Nat) : List Event :=
  [Event.setPixelColor 0 r g b, Event.delay duration, Event.clearPixels]

/-- One iteration of the `for` loop of `recordMovement` (lines 98-102): read x, y and z
into index `i`, then wait 100 ms. -/
def recordIteration (sensor : Nat → ℚ) (target : Target) (acc : State × List Event)
    (i : Fin SAMPLE_SIZE) : State × List Event :=
  let s0 := acc.1
  let m0 := s0.movement target
  let s1 := { s0.setMovement target { m0 with x := Function.update m0.x i (sensor s0.reads) }
              with reads := s0.reads + 1 }
  let m1 := s1.movement target
  let s2 := { s1.setMovement target { m1 with y := Function.update m1.y i (sensor s1.reads) }
              with reads := s1.reads + 1 }
  let m2 := s2.movement target
  let s3 := { s2.setMovement target { m2 with z := Function.update m2.z i (sensor s2.reads) }
              with reads := s2.reads + 1 }
  (s3, acc.2 ++ [Event.motionX, Event.motionY, Event.motionZ, Event.delay 100])

/-- The function `recordMovement`, run on the global that `target` names. -/
def recordMovement (sensor : Nat → ℚ) (target : Target) (s : State) : State × List Event :=
  (List.finRange SAMPLE_SIZE).foldl (recordIteration sensor target) (s, [])

/-- The debug output of `compareMovements` (lines 191-192). -/
def compareMovementsOutput (arr1 arr2 : Movement) : List Event :=
  [Event.serialPrintln (compareLoop arr1 arr2).dispDiff,
   Event.serialPrintln ((compareLoop arr1 arr2).score / SAMPLE_SIZE)]

/-- One run of the function `loop`, given the values read from the two buttons. -/
def loop (sensor : Nat → ℚ) (button1 button2 : Bool) (s : State) : State × List Event :=
  if button1 && button2 then
    ({ s with isLocked := false }, blinkLED 128 0 128 1500 ++ [Event.delay 100])
  else if button1 then
    let r := recordMovement sensor Target.lockMovement s
    ({ r.1 with isLocked := true },
      blinkLED 0 255 0 100 ++ r.2 ++ blinkLED 0 0 255 100 ++ [Event.delay 100])
  else if button2 && s.isLocked then
    let r := recordMovement sensor Target.testMovement s
    let score := compareMovements r.1.testMovement r.1.lockMovement
    (r.1,
      blinkLED 255 255 0 100 ++ r.2 ++
        compareMovementsOutput r.1.testMovement r.1.lockMovement ++
        (if score ≥ SUCCESS_THRESHOLD then blinkLED 0 255 0 3000 else blinkLED 255 0 0 3000) ++
        [Event.delay 100])
  else
    (s, [Event.delay 100])

/-- The state after running `loop` once for each pair of button values in `inputs`. -/
def run (sensor : Nat → ℚ) (inputs : List (Bool × Bool)) (s : State) : State :=
  inputs.foldl (fun st b => (loop sensor b.1 b.2 st).1) s

/-- The capture contract in the words of the specification: sample `i` of each channel
is the reading taken at iteration `i`, in acquisition order x, y, z, starting at
reading number `n`. -/
def specCapture (sensor : Nat → ℚ) (n : Nat) : Movement :=
  { x := fun i => sensor (n + 3 * i.val)
    y := fun i => sensor (n + 3 * i.val + 1)
    z := fun i => sensor (n + 3 * i.val + 2) }

/-- The events of one capture: 50 rounds of x, y, z and a 100 ms wait. -/
def captureEvents : List Event :=
  (List.replicate SAMPLE_SIZE
    [Event.motionX, Event.motionY, Event.motionZ, Event.delay 100]).flatten

/-- The sum of the waits in a list of events, in ms. -/
def totalDelay : List Event → Nat
  | [] => 0
  | Event.delay ms :: es => ms + totalDelay es
  | _ :: es => totalDelay es

/-- Whether an event is a reading of the accelerometer. -/
def Event.isMotion : Event → Bool
  | Event.motionX => true
  | Event.motionY => true
  | Event.motionZ => true
  | _ => false

/-- Whether an event is a line of the scorer's debug output. -/
def Event.isPrint : Event → Bool
  | Event.serialPrintln _ => true
  | _ => false

/-- Whether an event drives the pixel. -/
def Event.isPixel : Event → Bool
  | Event.setPixelColor _ _ _ _ => true
  | Event.clearPixels => true
  | _ => false

/-- A sampler whose n-th reading is `n`. -/
def countingSensor : Nat → ℚ := fun n => n

/-- The state reached from the initial state by one record step under `countingSensor`. -/
def lockedExample : State := run countingSensor [(true, false)] initialState

/-! ## General facts about the loop -/

theorem abs_eq_mathlib_abs (x : ℚ) : abs x = |x| := rfl

theorem abs_ge_zero (x : ℚ) : 0 ≤ abs x := by
  rw [abs_eq_mathlib_abs]; exact abs_nonneg x

theorem num_nonneg (arr1 arr2 : Movement) (i : Fin SAMPLE_SIZE) : 0 ≤ num arr1 arr2 i := by
  unfold num
  have h1 := abs_ge_zero ((averages arr1 arr2 i).average1x - (averages arr1 arr2 i).average2x)
  have h2 := abs_ge_zero ((averages arr1 arr2 i).average1y - (averages arr1 arr2 i).average2y)
  have h3 := abs_ge_zero ((averages arr1 arr2 i).average1z - (averages arr1 arr2 i).average2z)
  linarith

theorem loopBody_dispDiff (arr1 arr2 : Movement) (acc : Acc) (i : Fin SAMPLE_SIZE) :
    (loopBody arr1 arr2 acc i).dispDiff = acc.dispDiff + num arr1 arr2 i := by
  unfold loopBody
  split_ifs <;> rfl

theorem loopBody_score (arr1 arr2 : Movement) (acc : Acc) (i : Fin SAMPLE_SIZE) :
    (loopBody arr1 arr2 acc i).score = acc.score + contribution arr1 arr2 i := by
  unfold contribution loopBody
  split_ifs <;> simp

theorem foldl_dispDiff (arr1 arr2 : Movement) (l : List (Fin SAMPLE_SIZE)) (acc : Acc) :
    (l.foldl (loopBody arr1 arr2) acc).dispDiff = acc.dispDiff + (l.map (num arr1 arr2)).sum := by
  induction l generalizing acc with
  | nil => simp
  | cons i l ih => simp [ih, loopBody_dispDiff, add_assoc]

theorem foldl_score (arr1 arr2 : Movement) (l : List (Fin SAMPLE_SIZE)) (acc : Acc) :
    (l.foldl (loopBody arr1 arr2) acc).score =
      acc.score + (l.map (contribution arr1 arr2)).sum := by
  induction l generalizing acc with
  | nil => simp
  | cons i l ih => simp [ih, loopBody_score, add_assoc]

theorem totalDiff_eq_sum (arr1 arr2 : Movement) :
    totalDiff arr1 arr2 = ∑ i : Fin SAMPLE_SIZE, num arr1 arr2 i := by
  unfold totalDiff compareLoop
  rw [foldl_dispDiff, Fin.sum_univ_def]
  simp

theorem score_eq_sum (arr1 arr2 : Movement) :
    (compareLoop arr1 arr2).score = ∑ i : Fin SAMPLE_SIZE, contribution arr1 arr2 i := by
  unfold compareLoop
  rw [foldl_score, Fin.sum_univ_def]
  simp

theorem contribution_eq (arr1 arr2 : Movement) (i : Fin SAMPLE_SIZE) :
    contribution arr1 arr2 i =
      if num arr1 arr2 i > 7 then 0 else if num arr1 arr2 i ≤ 4 then 1 else 1 / 2 := by
  unfold contribution loopBody TOLERANCE_HIGH TOLERANCE_LOW
  split_ifs <;> simp

theorem num_self (t : Movement) (i : Fin SAMPLE_SIZE) : num t t i = 0 := by
  unfold num averages
  split_ifs <;> simp [abs]

theorem contribution_self (t : Movement) (i : Fin SAMPLE_SIZE) : contribution t t i = 1 := by
  rw [contribution_eq, num_self]; norm_num

theorem totalDiff_self (t : Movement) : totalDiff t t = 0 := by
  rw [totalDiff_eq_sum]; simp [num_self]

theorem normalizedScore_self (t : Movement) : normalizedScore t t = 1 := by
  unfold normalizedScore
  rw [score_eq_sum]; simp [contribution_self]

theorem compareMovements_self (t : Movement) : compareMovements t t = 1 := by
  have h1 : (compareLoop t t).dispDiff = 0 := totalDiff_self t
  have h2 : (compareLoop t t).score / SAMPLE_SIZE = 1 := normalizedScore_self t
  unfold compareMovements
  rw [h1, h2]
  norm_num [SUCCESS_THRESHOLD]

theorem windowMean_of_list (l : List (Fin SAMPLE_SIZE)) (hl : l.Nodup)
    (ch : Fin SAMPLE_SIZE → ℚ) :
    windowMean (l.map Fin.val).toFinset ch = (l.map ch).sum / l.length := by
  have hfilter : Finset.univ.filter
      (fun j : Fin SAMPLE_SIZE => j.val ∈ (l.map Fin.val).toFinset) = l.toFinset := by
    ext j
    simp [Fin.val_inj]
  have hcard : (l.map Fin.val).toFinset.card = l.length := by
    rw [List.toFinset_card_of_nodup (hl.map Fin.val_injective), List.length_map]
  unfold windowMean
  rw [hfilter, hcard, List.sum_toFinset _ hl]

theorem windowMean_of_list' (w : Finset Nat) (l : List (Fin SAMPLE_SIZE)) (hl : l.Nodup)
    (hw : w = (l.map Fin.val).toFinset) (ch : Fin SAMPLE_SIZE → ℚ) :
    windowMean w ch = (l.map ch).sum / l.length := by
  rw [hw, windowMean_of_list l hl]

theorem windowMean_first (ch : Fin SAMPLE_SIZE → ℚ) :
    windowMean (specWindow 0) ch = (ch 0 + ch 1 + ch 2) / 3 := by
  rw [windowMean_of_list' (specWindow 0) [0, 1, 2] (by decide) (by rfl)]
  simp [add_assoc]

theorem windowMean_second (ch : Fin SAMPLE_SIZE → ℚ) :
    windowMean (specWindow 1) ch = (ch 0 + ch 1 + ch 2 + ch 3) / 4 := by
  rw [windowMean_of_list' (specWindow 1) [0, 1, 2, 3] (by decide) (by rfl)]
  simp [add_assoc]

theorem windowMean_secondToLast (ch : Fin SAMPLE_SIZE → ℚ) :
    windowMean (specWindow 48) ch = (ch 46 + ch 47 + ch 48 + ch 49) / 4 := by
  rw [windowMean_of_list' (specWindow 48) [46, 47, 48, 49] (by decide) (by rfl)]
  simp [add_assoc]

theorem windowMean_last (ch : Fin SAMPLE_SIZE → ℚ) :
    windowMean (specWindow 49) ch = (ch 47 + ch 48 + ch 49) / 3 := by
  rw [windowMean_of_list' (specWindow 49) [47, 48, 49] (by decide) (by rfl)]
  simp [add_assoc]

theorem windowMean_middle (i : Fin SAMPLE_SIZE) (h0 : i.val ≠ 0) (h1 : i.val ≠ 1)
    (h48 : i.val ≠ 48) (h49 : i.val ≠ 49) (ch : Fin SAMPLE_SIZE → ℚ) :
    windowMean (specWindow i.val) ch =
      (ch i + ch ⟨i.val - 1, by have hi : i.val < 50 := i.isLt; show _ < 50; omega⟩ +
        ch ⟨i.val - 2, by have hi : i.val < 50 := i.isLt; show _ < 50; omega⟩ +
        ch ⟨i.val + 1, by have hi : i.val < 50 := i.isLt; show _ < 50; omega⟩ +
        ch ⟨i.val + 2, by have hi : i.val < 50 := i.isLt; show _ < 50; omega⟩) / 5 := by
  have hi : i.val < 50 := i.isLt
  rw [windowMean_of_list' (specWindow i.val)
      [⟨i.val - 2, by show _ < 50; omega⟩, ⟨i.val - 1, by show _ < 50; omega⟩, i,
        ⟨i.val + 1, by show _ < 50; omega⟩, ⟨i.val + 2, by show _ < 50; omega⟩]
      (by simp [Fin.ext_iff]; omega)
      (by simp [specWindow, h0, h1, h48, h49])]
  simp
  ring

theorem averages_eq_windowMean (arr1 arr2 : Movement) (i : Fin SAMPLE_SIZE) :
    (averages arr1 arr2 i).average1x = windowMean (specWindow i.val) arr1.x ∧
    (averages arr1 arr2 i).average2x = windowMean (specWindow i.val) arr2.x ∧
    (averages arr1 arr2 i).average1y = windowMean (specWindow i.val) arr1.y ∧
    (averages arr1 arr2 i).average2y = windowMean (specWindow i.val) arr2.y ∧
    (averages arr1 arr2 i).average1z = windowMean (specWindow i.val) arr1.z ∧
    (averages arr1 arr2 i).average2z = windowMean (specWindow i.val) arr2.z := by
  unfold averages
  split_ifs with h0 h1 h48 h49
  · simp only [h0, windowMean_first, and_self]
  · simp only [h1, windowMean_second, and_self]
  · simp only [h48, windowMean_secondToLast, and_self]
  · simp only [h49, windowMean_last, and_self]
  · simp only [windowMean_middle i h0 h1 h48 h49, and_self]

theorem specWindow_lt (i : Fin SAMPLE_SIZE) : ∀ j ∈ specWindow i.val, j < SAMPLE_SIZE := by
  have hi : i.val < 50 := i.isLt
  intro j hj
  show j < 50
  unfold specWindow at hj
  split_ifs at hj <;> simp at hj <;> omega

theorem specWindow_card (i : Fin SAMPLE_SIZE) :
    (specWindow i.val).card =
      if i.val = 0 ∨ i.val = 49 then 3 else if i.val = 1 ∨ i.val = 48 then 4 else 5 := by
  have hi : i.val < 50 := i.isLt
  unfold specWindow
  split_ifs <;> first | rfl | omega | skip
  have e : ({i.val - 2, i.val - 1, i.val, i.val + 1, i.val + 2} : Finset Nat) =
      ([i.val - 2, i.val - 1, i.val, i.val + 1, i.val + 2] : List Nat).toFinset := by simp
  rw [e, List.toFinset_card_of_nodup]
  · rfl
  · simp; omega

theorem num_eq_specDistance (arr1 arr2 : Movement) (i : Fin SAMPLE_SIZE) :
    num arr1 arr2 i = specDistance arr1 arr2 i := by
  obtain ⟨h1, h2, h3, h4, h5, h6⟩ := averages_eq_windowMean arr1 arr2 i
  unfold num specDistance
  rw [h1, h2, h3, h4, h5, h6, abs_eq_mathlib_abs, abs_eq_mathlib_abs, abs_eq_mathlib_abs]

theorem contribution_nonneg (arr1 arr2 : Movement) (i : Fin SAMPLE_SIZE) :
    0 ≤ contribution arr1 arr2 i := by
  rw [contribution_eq]; split_ifs <;> norm_num

theorem contribution_le_one (arr1 arr2 : Movement) (i : Fin SAMPLE_SIZE) :
    contribution arr1 arr2 i ≤ 1 := by
  rw [contribution_eq]; split_ifs <;> norm_num

theorem normalizedScore_eq_sum (arr1 arr2 : Movement) :
    normalizedScore arr1 arr2 = (∑ i : Fin SAMPLE_SIZE, contribution arr1 arr2 i) / 50 := by
  unfold normalizedScore
  rw [score_eq_sum]; norm_num

theorem normalizedScore_nonneg (arr1 arr2 : Movement) : 0 ≤ normalizedScore arr1 arr2 := by
  rw [normalizedScore_eq_sum]
  exact div_nonneg (Finset.sum_nonneg (fun i _ => contribution_nonneg arr1 arr2 i)) (by norm_num)

theorem normalizedScore_le_one (arr1 arr2 : Movement) : normalizedScore arr1 arr2 ≤ 1 := by
  rw [normalizedScore_eq_sum]
  have h : ∑ i : Fin SAMPLE_SIZE, contribution arr1 arr2 i ≤ ∑ _i : Fin SAMPLE_SIZE, (1 : ℚ) :=
    Finset.sum_le_sum (fun i _ => contribution_le_one arr1 arr2 i)
  simp at h
  linarith

theorem totalDiff_nonneg (arr1 arr2 : Movement) : 0 ≤ totalDiff arr1 arr2 := by
  rw [totalDiff_eq_sum]
  exact Finset.sum_nonneg (fun i _ => num_nonneg arr1 arr2 i)

theorem compareMovements_eq_zero_of_score (arr1 arr2 : Movement)
    (h : normalizedScore arr1 arr2 ≤ 90 / 100) : compareMovements arr1 arr2 = 0 := by
  unfold normalizedScore at h
  unfold compareMovements SUCCESS_THRESHOLD
  rw [if_neg]
  intro hc
  linarith [hc.2]

theorem compareMovements_eq_zero_of_diff (arr1 arr2 : Movement)
    (h : 110 ≤ totalDiff arr1 arr2) : compareMovements arr1 arr2 = 0 := by
  unfold totalDiff at h
  unfold compareMovements
  rw [if_neg]
  intro hc
  linarith [hc.1]

/-! ## Smoothing as a positive linear map -/

theorem windowMean_sub (w : Finset Nat) (f g : Fin SAMPLE_SIZE → ℚ) :
    windowMean w f - windowMean w g = windowMean w (fun j => f j - g j) := by
  unfold windowMean
  rw [Finset.sum_sub_distrib, sub_div]

theorem windowMean_mono (w : Finset Nat) (f g : Fin SAMPLE_SIZE → ℚ) (h : ∀ j, f j ≤ g j) :
    windowMean w f ≤ windowMean w g := by
  unfold windowMean
  exact div_le_div_of_nonneg_right (Finset.sum_le_sum (fun j _ => h j)) (Nat.cast_nonneg _)

theorem abs_windowMean_le (w : Finset Nat) (f : Fin SAMPLE_SIZE → ℚ) :
    |windowMean w f| ≤ windowMean w (fun j => |f j|) := by
  unfold windowMean
  rw [abs_div, Nat.abs_cast]
  exact div_le_div_of_nonneg_right (Finset.abs_sum_le_sum_abs _ _) (Nat.cast_nonneg _)

theorem windowMean_congr (w : Finset Nat) (f g : Fin SAMPLE_SIZE → ℚ)
    (h : ∀ j : Fin SAMPLE_SIZE, j.val ∈ w → f j = g j) : windowMean w f = windowMean w g := by
  unfold windowMean
  congr 1
  exact Finset.sum_congr rfl (fun j hj => h j (Finset.mem_filter.mp hj).2)

theorem abs_windowMean_of_nonneg (w : Finset Nat) (f : Fin SAMPLE_SIZE → ℚ)
    (h : ∀ j : Fin SAMPLE_SIZE, j.val ∈ w → 0 ≤ f j) :
    |windowMean w f| = windowMean w (fun j => |f j|) := by
  rw [windowMean_congr w (fun j => |f j|) f (fun j hj => abs_of_nonneg (h j hj))]
  apply abs_of_nonneg
  unfold windowMean
  exact div_nonneg (Finset.sum_nonneg (fun j hj => h j (Finset.mem_filter.mp hj).2))
    (Nat.cast_nonneg _)

theorem abs_windowMean_of_nonpos (w : Finset Nat) (f : Fin SAMPLE_SIZE → ℚ)
    (h : ∀ j : Fin SAMPLE_SIZE, j.val ∈ w → f j ≤ 0) :
    |windowMean w f| = windowMean w (fun j => |f j|) := by
  have hneg : windowMean w f = - windowMean w (fun j => - f j) := by
    unfold windowMean
    rw [Finset.sum_neg_distrib, neg_div, neg_neg]
  have h2 := abs_windowMean_of_nonneg w (fun j => - f j) (fun j hj => neg_nonneg.mpr (h j hj))
  simp only [abs_neg] at h2
  rw [hneg, abs_neg, h2]

/-- The smoothed divergence of one channel over the window `w` grows when the raw
divergence grows at every sample and the new differences at the indices of `w` all
have one sign. -/
theorem smoothed_divergence_mono (w : Finset Nat) (k f g : Fin SAMPLE_SIZE → ℚ)
    (hdiv : ∀ j, |g j - k j| ≥ |f j - k j|)
    (hsign : (∀ j : Fin SAMPLE_SIZE, j.val ∈ w → 0 ≤ g j - k j) ∨
      (∀ j : Fin SAMPLE_SIZE, j.val ∈ w → g j - k j ≤ 0)) :
    |windowMean w f - windowMean w k| ≤ |windowMean w g - windowMean w k| := by
  rw [windowMean_sub, windowMean_sub]
  have hg : |windowMean w (fun j => g j - k j)| = windowMean w (fun j => |g j - k j|) := by
    rcases hsign with hs | hs
    · exact abs_windowMean_of_nonneg w _ hs
    · exact abs_windowMean_of_nonpos w _ hs
  rw [hg]
  exact le_trans (abs_windowMean_le w _) (windowMean_mono w _ _ hdiv)

/-! ## The claims -/

/-- C1: `compareMovements` returns 1 (success) if and only if `totalDiff < 110` and
`normalizedScore > 0.90`, where `totalDiff` is the accumulated `dispDiff` and
`normalizedScore` is `score / 50`; in every other case it returns 0 (failure). -/
theorem verdict_iff_dual_gate (arr1 arr2 : Movement) :
    (compareMovements arr1 arr2 = 1 ↔
      (totalDiff arr1 arr2 < 110 ∧ normalizedScore arr1 arr2 > 90 / 100)) ∧
    (¬ (totalDiff arr1 arr2 < 110 ∧ normalizedScore arr1 arr2 > 90 / 100) →
      compareMovements arr1 arr2 = 0) ∧
    totalDiff arr1 arr2 = (compareLoop arr1 arr2).dispDiff ∧
    normalizedScore arr1 arr2 = (compareLoop arr1 arr2).score / 50 := by
  have hN : ((SAMPLE_SIZE : ℕ) : ℚ) = 50 := by norm_num
  unfold compareMovements totalDiff normalizedScore SUCCESS_THRESHOLD
  rw [hN]
  refine ⟨?_, ?_, rfl, rfl⟩
  · split_ifs with h
    · simp only [true_iff]; exact h
    · simp only [zero_ne_one, false_iff]; exact h
  · intro h
    rw [if_neg h]

/-- C2: comparing any trace with itself gives `totalDiff = 0`, `normalizedScore = 1`
and the verdict success; in particular for the constant trace x = y = z = 1. -/
theorem self_comparison_is_perfect_match (t : Movement) :
    (totalDiff t t = 0 ∧ normalizedScore t t = 1 ∧ compareMovements t t = 1) ∧
    (totalDiff (constMovement 1) (constMovement 1) = 0 ∧
      normalizedScore (constMovement 1) (constMovement 1) = 1 ∧
      compareMovements (constMovement 1) (constMovement 1) = 1) :=
  ⟨⟨totalDiff_self t, normalizedScore_self t, compareMovements_self t⟩,
   ⟨totalDiff_self _, normalizedScore_self _, compareMovements_self _⟩⟩

/-- C3: for N = 50 and every index `i`, each of the six smoothed values computed by
`compareMovements` is the arithmetic mean of the samples at exactly the indices
{0,1,2} for i = 0, {0,1,2,3} for i = 1, {46,47,48,49} for i = 48, {47,48,49} for
i = 49 and {i-2,i-1,i,i+1,i+2} otherwise; the window is the same for the three
channels and both traces, lies inside [0, 50) and has 3, 4 or 5 members. -/
theorem smoothing_windows (arr1 arr2 : Movement) (i : Fin SAMPLE_SIZE) :
    ((averages arr1 arr2 i).average1x = windowMean (specWindow i.val) arr1.x ∧
      (averages arr1 arr2 i).average2x = windowMean (specWindow i.val) arr2.x ∧
      (averages arr1 arr2 i).average1y = windowMean (specWindow i.val) arr1.y ∧
      (averages arr1 arr2 i).average2y = windowMean (specWindow i.val) arr2.y ∧
      (averages arr1 arr2 i).average1z = windowMean (specWindow i.val) arr1.z ∧
      (averages arr1 arr2 i).average2z = windowMean (specWindow i.val) arr2.z) ∧
    (∀ j ∈ specWindow i.val, j < SAMPLE_SIZE) ∧
    (specWindow i.val).card =
      (if i.val = 0 ∨ i.val = 49 then 3 else if i.val = 1 ∨ i.val = 48 then 4 else 5) ∧
    specWindow i.val =
      (if i.val = 0 then {0, 1, 2}
       else if i.val = 1 then {0, 1, 2, 3}
       else if i.val = 48 then {46, 47, 48, 49}
       else if i.val = 49 then {47, 48, 49}
       else {i.val - 2, i.val - 1, i.val, i.val + 1, i.val + 2}) :=
  ⟨averages_eq_windowMean arr1 arr2 i, specWindow_lt i, specWindow_card i, rfl⟩

/-- C4: the `totalDiff` computed by `compareMovements` is the sum over all 50 indices
`i` of `d_i`, the L1 distance between the smoothed x, y, z values of the two traces
at index `i`; and `d_i` is the `num` of iteration `i`. -/
theorem totalDiff_is_sum_of_distances (test key : Movement) :
    totalDiff test key = ∑ i : Fin SAMPLE_SIZE, specDistance test key i ∧
    ∀ i : Fin SAMPLE_SIZE, num test key i = specDistance test key i := by
  refine ⟨?_, num_eq_specDistance test key⟩
  rw [totalDiff_eq_sum]
  exact Finset.sum_congr rfl (fun i _ => num_eq_specDistance test key i)

/-- C5: `normalizedScore` is `rawScore / 50`, where `rawScore` is the sum of the
per-index contributions; the contribution of index `i` is 0 exactly when `d_i > 7`
and is 1 exactly when `d_i ≤ 4`. -/
theorem normalizedScore_is_rawScore_over_N (test key : Movement) :
    normalizedScore test key = (∑ i : Fin SAMPLE_SIZE, contribution test key i) / 50 ∧
    (compareLoop test key).score = ∑ i : Fin SAMPLE_SIZE, contribution test key i ∧
    ∀ i : Fin SAMPLE_SIZE,
      (contribution test key i = 0 ↔ specDistance test key i > 7) ∧
      (contribution test key i = 1 ↔ specDistance test key i ≤ 4) := by
  refine ⟨normalizedScore_eq_sum test key, score_eq_sum test key, fun i => ?_⟩
  rw [contribution_eq, num_eq_specDistance]
  constructor
  · split_ifs with h1 h2
    · simp [h1]
    · norm_num; linarith
    · norm_num; linarith
  · split_ifs with h1 h2
    · norm_num; linarith
    · simp [h2]
    · norm_num; linarith

/-- C6 (counterexample): with x samples all 7 against the zero key, `d_0 = 7`, which is
not strictly between 4 and 7, and yet index 0 contributes 0.5 to the raw score. -/
theorem half_point_at_upper_threshold :
    num (constXYZ 7 0 0) (constXYZ 0 0 0) 0 = 7 ∧
    specDistance (constXYZ 7 0 0) (constXYZ 0 0 0) 0 = 7 ∧
    contribution (constXYZ 7 0 0) (constXYZ 0 0 0) 0 = 1 / 2 ∧
    ¬ (contribution (constXYZ 7 0 0) (constXYZ 0 0 0) 0 = 1 / 2 ↔
        (4 < specDistance (constXYZ 7 0 0) (constXYZ 0 0 0) 0 ∧
          specDistance (constXYZ 7 0 0) (constXYZ 0 0 0) 0 < 7)) := by
  have hn : num (constXYZ 7 0 0) (constXYZ 0 0 0) 0 = 7 := by decide!
  have hc : contribution (constXYZ 7 0 0) (constXYZ 0 0 0) 0 = 1 / 2 := by decide!
  have hd : specDistance (constXYZ 7 0 0) (constXYZ 0 0 0) 0 = 7 := by
    rw [← num_eq_specDistance]; exact hn
  refine ⟨hn, hd, hc, ?_⟩
  rw [hd, hc]
  norm_num

/-- C6 (amended): the per-index contribution to the raw score is 0.5 if and only if
`4 < d_i ≤ 7`: the upper threshold itself still earns the half point. -/
theorem half_point_iff (test key : Movement) (i : Fin SAMPLE_SIZE) :
    contribution test key i = 1 / 2 ↔
      (4 < specDistance test key i ∧ specDistance test key i ≤ 7) := by
  rw [contribution_eq, num_eq_specDistance]
  split_ifs with h1 h2
  · constructor
    · intro h; norm_num at h
    · intro h; linarith [h.2]
  · constructor
    · intro h; norm_num at h
    · intro h; linarith [h.1]
  · constructor
    · intro _; exact ⟨not_le.mp h2, not_lt.mp h1⟩
    · intro _; rfl

/-- C7: when the smoothed distance `d_i` exceeds 7 at every index, `normalizedScore`
is 0 and the verdict is failure (for every value of `totalDiff`). -/
theorem all_distances_high_fails (t1 t2 : Movement)
    (h : ∀ i : Fin SAMPLE_SIZE, specDistance t1 t2 i > 7) :
    normalizedScore t1 t2 = 0 ∧ compareMovements t1 t2 = 0 := by
  have hs : normalizedScore t1 t2 = 0 := by
    rw [normalizedScore_eq_sum]
    have hz : ∀ i : Fin SAMPLE_SIZE, contribution t1 t2 i = 0 := by
      intro i
      rw [contribution_eq, num_eq_specDistance, if_pos (h i)]
    simp [hz]
  refine ⟨hs, compareMovements_eq_zero_of_score t1 t2 ?_⟩
  rw [hs]; norm_num

/-- C7 (witness): the constant trace 3 against the constant trace 0 has `d_i = 9` at
every index. -/
theorem all_distances_high_fails_witness :
    (∀ i : Fin SAMPLE_SIZE, specDistance (constMovement 3) (constMovement 0) i > 7) ∧
    normalizedScore (constMovement 3) (constMovement 0) = 0 ∧
    compareMovements (constMovement 3) (constMovement 0) = 0 :=
  have h : ∀ i : Fin SAMPLE_SIZE, specDistance (constMovement 3) (constMovement 0) i > 7 := by
    intro i
    rw [← num_eq_specDistance]
    revert i
    decide!
  ⟨h, all_distances_high_fails (constMovement 3) (constMovement 0) h⟩

/-- C8: over exact rational samples, `normalizedScore` lies in the closed interval
[0, 1] and `totalDiff` is at least 0. -/
theorem score_in_unit_interval_and_diff_nonneg (test key : Movement) :
    0 ≤ normalizedScore test key ∧ normalizedScore test key ≤ 1 ∧ 0 ≤ totalDiff test key :=
  ⟨normalizedScore_nonneg test key, normalizedScore_le_one test key, totalDiff_nonneg test key⟩

/-- C9 (counterexample): against the zero key, the x channel 1, -1, 0, 0, ... is at
every sample at least as far from the key as 1, 0, 0, ..., the other channels are
the same, and yet its `totalDiff` is smaller (1/5 against 47/60): the smoothing lets
samples of opposite sign cancel. -/
theorem totalDiff_not_monotone :
    (∀ c : Channel, c ≠ Channel.x → zigzagTest.chan c = stepTest.chan c) ∧
    (∀ j : Fin SAMPLE_SIZE,
      |zigzagTest.chan Channel.x j - (constMovement 0).chan Channel.x j| ≥
        |stepTest.chan Channel.x j - (constMovement 0).chan Channel.x j|) ∧
    totalDiff stepTest (constMovement 0) = 47 / 60 ∧
    totalDiff zigzagTest (constMovement 0) = 1 / 5 ∧
    ¬ (totalDiff zigzagTest (constMovement 0) ≥ totalDiff stepTest (constMovement 0)) := by
  have h1 : totalDiff stepTest (constMovement 0) = 47 / 60 := by decide!
  have h2 : totalDiff zigzagTest (constMovement 0) = 1 / 5 := by decide!
  refine ⟨?_, ?_, h1, h2, ?_⟩
  · intro c hc
    cases c
    · exact absurd rfl hc
    · rfl
    · rfl
  · intro j
    simp only [Movement.chan, zigzagTest, stepTest, constMovement]
    split_ifs <;> norm_num
  · rw [h1, h2]; norm_num

/-- C9 (amended): over exact rational samples, if `test'` differs from `test` only on
one channel, at every sample of that channel `test'` is at least as far from `key`
as `test` is, and inside each smoothing window the differences `test'[j] - key[j]`
of that channel have one sign (all ≥ 0 or all ≤ 0 over the window's indices; the
sign may change from one window to another), then the `totalDiff` of
(`test'`, `key`) is at least that of (`test`, `key`). -/
theorem totalDiff_monotone_one_sided (key test test' : Movement) (c : Channel)
    (hother : ∀ c' : Channel, c' ≠ c → test'.chan c' = test.chan c')
    (hdiv : ∀ j : Fin SAMPLE_SIZE,
      |test'.chan c j - key.chan c j| ≥ |test.chan c j - key.chan c j|)
    (hsign : ∀ i : Fin SAMPLE_SIZE,
      (∀ j : Fin SAMPLE_SIZE, j.val ∈ specWindow i.val →
        0 ≤ test'.chan c j - key.chan c j) ∨
      (∀ j : Fin SAMPLE_SIZE, j.val ∈ specWindow i.val →
        test'.chan c j - key.chan c j ≤ 0)) :
    totalDiff test' key ≥ totalDiff test key := by
  rw [(totalDiff_eq_sum test' key), (totalDiff_eq_sum test key)]
  apply Finset.sum_le_sum
  intro i _
  rw [num_eq_specDistance, num_eq_specDistance]
  have hmono := smoothed_divergence_mono (specWindow i.val) (key.chan c) (test.chan c)
    (test'.chan c) hdiv (hsign i)
  unfold specDistance
  cases c
  · have hy : test'.y = test.y := hother Channel.y (by decide)
    have hz : test'.z = test.z := hother Channel.z (by decide)
    simp only [Movement.chan] at hmono
    rw [hy, hz]
    linarith
  · have hx : test'.x = test.x := hother Channel.x (by decide)
    have hz : test'.z = test.z := hother Channel.z (by decide)
    simp only [Movement.chan] at hmono
    rw [hx, hz]
    linarith
  · have hx : test'.x = test.x := hother Channel.x (by decide)
    have hy : test'.y = test.y := hother Channel.y (by decide)
    simp only [Movement.chan] at hmono
    rw [hx, hy]
    linarith

/-- C9 (amended, witness): against the zero key, the x channel with 1 at index 0 and
-1 at index 10 is raised to 2 at index 0 and -2 at index 10. The differences have
both signs over the trace but one sign inside every window, and `totalDiff` grows
from 107/60 to 107/30. -/
theorem totalDiff_monotone_one_sided_witness :
    totalDiff bumpsTest (constMovement 0) = 107 / 60 ∧
    totalDiff bumpsTestWide (constMovement 0) = 107 / 30 ∧
    ¬ (∀ j : Fin SAMPLE_SIZE,
        0 ≤ bumpsTestWide.chan Channel.x j - (constMovement 0).chan Channel.x j) ∧
    ¬ (∀ j : Fin SAMPLE_SIZE,
        bumpsTestWide.chan Channel.x j - (constMovement 0).chan Channel.x j ≤ 0) ∧
    totalDiff bumpsTestWide (constMovement 0) ≥ totalDiff bumpsTest (constMovement 0) :=
  ⟨by decide!, by decide!, by decide!, by decide!,
    totalDiff_monotone_one_sided (constMovement 0) bumpsTest bumpsTestWide Channel.x
      (by
        intro c hc
        cases c
        · exact absurd rfl hc
        · rfl
        · rfl)
      (by decide!)
      (by decide!)⟩

/-- C10: there is a pair of length-50 traces with `normalizedScore = 0.95` and
`totalDiff = 120` (x samples all 2 except one 22, against the zero key), and for every
such pair the verdict is failure: the `totalDiff < 110` gate rejects it although
0.95 passes the score gate. -/
theorem dual_gate_scenario :
    (∃ test key : Movement, normalizedScore test key = 95 / 100 ∧ totalDiff test key = 120) ∧
    (normalizedScore spikeTest (constMovement 0) = 95 / 100 ∧
      totalDiff spikeTest (constMovement 0) = 120 ∧
      compareMovements spikeTest (constMovement 0) = 0) ∧
    (∀ test key : Movement, normalizedScore test key = 95 / 100 → totalDiff test key = 120 →
      compareMovements test key = 0 ∧ normalizedScore test key > 90 / 100 ∧
        ¬ totalDiff test key < 110) := by
  have h1 : normalizedScore spikeTest (constMovement 0) = 95 / 100 := by decide!
  have h2 : totalDiff spikeTest (constMovement 0) = 120 := by decide!
  have hall : ∀ test key : Movement, normalizedScore test key = 95 / 100 →
      totalDiff test key = 120 →
      compareMovements test key = 0 ∧ normalizedScore test key > 90 / 100 ∧
        ¬ totalDiff test key < 110 := by
    intro test key hs hd
    refine ⟨compareMovements_eq_zero_of_diff test key ?_, ?_, ?_⟩
    · rw [hd]; norm_num
    · rw [hs]; norm_num
    · rw [hd]; norm_num
  exact ⟨⟨spikeTest, constMovement 0, h1, h2⟩, ⟨h1, h2, (hall _ _ h1 h2).1⟩, hall⟩

/-! ## Further facts about the scorer -/

theorem compareLoop_congr (a b a' b' : Movement)
    (h : ∀ i : Fin SAMPLE_SIZE, num a b i = num a' b' i) :
    compareLoop a b = compareLoop a' b' := by
  have hfun : loopBody a b = loopBody a' b' := by
    funext acc i
    unfold loopBody
    rw [h i]
  unfold compareLoop
  rw [hfun]

theorem normalizedScore_eq_zero_of_high (t1 t2 : Movement)
    (h : ∀ i : Fin SAMPLE_SIZE, num t1 t2 i > 7) : normalizedScore t1 t2 = 0 := by
  rw [normalizedScore_eq_sum]
  have hz : ∀ i : Fin SAMPLE_SIZE, contribution t1 t2 i = 0 := by
    intro i
    rw [contribution_eq, if_pos (h i)]
  simp [hz]

theorem num_offsetX (k : Movement) (c : ℚ) (i : Fin SAMPLE_SIZE) :
    num (offsetX k c) k i = |c| := by
  unfold num averages
  split_ifs <;> simp only [offsetX, abs, sub_self, abs_zero, add_zero] <;> congr 1 <;> ring

theorem num_symm (a b : Movement) (i : Fin SAMPLE_SIZE) : num a b i = num b a i := by
  rw [num_eq_specDistance, num_eq_specDistance]
  unfold specDistance
  rw [abs_sub_comm (windowMean (specWindow i.val) a.x), abs_sub_comm (windowMean (specWindow i.val) a.y),
    abs_sub_comm (windowMean (specWindow i.val) a.z)]

theorem windowMean_add_sub (w : Finset Nat) (f g h : Fin SAMPLE_SIZE → ℚ) :
    windowMean w (fun j => f j + h j) - windowMean w (fun j => g j + h j) =
      windowMean w f - windowMean w g := by
  rw [windowMean_sub, windowMean_sub]
  congr 1
  funext j
  ring

theorem num_add (a b c : Movement) (i : Fin SAMPLE_SIZE) :
    num (a.add c) (b.add c) i = num a b i := by
  rw [num_eq_specDistance, num_eq_specDistance]
  unfold specDistance Movement.add
  simp only [windowMean_add_sub]

/-! ## The capture loop -/

theorem recordIteration_reads (sensor : Nat → ℚ) (target : Target) (acc : State × List Event)
    (i : Fin SAMPLE_SIZE) :
    (recordIteration sensor target acc i).1.reads = acc.1.reads + 3 := by
  cases target <;> simp [recordIteration, State.setMovement]

theorem recordIteration_isLocked (sensor : Nat → ℚ) (target : Target)
    (acc : State × List Event) (i : Fin SAMPLE_SIZE) :
    (recordIteration sensor target acc i).1.isLocked = acc.1.isLocked := by
  cases target <;> simp [recordIteration, State.setMovement]

theorem recordIteration_events (sensor : Nat → ℚ) (target : Target)
    (acc : State × List Event) (i : Fin SAMPLE_SIZE) :
    (recordIteration sensor target acc i).2 =
      acc.2 ++ [Event.motionX, Event.motionY, Event.motionZ, Event.delay 100] := by
  simp [recordIteration]

theorem recordIteration_other (sensor : Nat → ℚ) (target other : Target) (h : other ≠ target)
    (acc : State × List Event) (i : Fin SAMPLE_SIZE) :
    (recordIteration sensor target acc i).1.movement other = acc.1.movement other := by
  cases target <;> cases other <;>
    first
    | exact absurd rfl h
    | simp [recordIteration, State.setMovement, State.movement]

theorem recordIteration_target (sensor : Nat → ℚ) (target : Target)
    (acc : State × List Event) (i : Fin SAMPLE_SIZE) :
    (recordIteration sensor target acc i).1.movement target =
      { x := Function.update (acc.1.movement target).x i (sensor acc.1.reads)
        y := Function.update (acc.1.movement target).y i (sensor (acc.1.reads + 1))
        z := Function.update (acc.1.movement target).z i (sensor (acc.1.reads + 2)) } := by
  cases target <;> simp [recordIteration, State.setMovement, State.movement]

theorem recordFold_reads (sensor : Nat → ℚ) (target : Target) (l : List (Fin SAMPLE_SIZE))
    (acc : State × List Event) :
    (l.foldl (recordIteration sensor target) acc).1.reads = acc.1.reads + 3 * l.length := by
  induction l generalizing acc with
  | nil => simp
  | cons i l ih =>
    rw [List.foldl_cons, ih, recordIteration_reads, List.length_cons]
    ring

theorem recordFold_isLocked (sensor : Nat → ℚ) (target : Target)
    (l : List (Fin SAMPLE_SIZE)) (acc : State × List Event) :
    (l.foldl (recordIteration sensor target) acc).1.isLocked = acc.1.isLocked := by
  induction l generalizing acc with
  | nil => simp
  | cons i l ih => rw [List.foldl_cons, ih, recordIteration_isLocked]

theorem recordFold_other (sensor : Nat → ℚ) (target other : Target) (h : other ≠ target)
    (l : List (Fin SAMPLE_SIZE)) (acc : State × List Event) :
    (l.foldl (recordIteration sensor target) acc).1.movement other = acc.1.movement other := by
  induction l generalizing acc with
  | nil => simp
  | cons i l ih => rw [List.foldl_cons, ih, recordIteration_other sensor target other h]

theorem recordFold_events (sensor : Nat → ℚ) (target : Target) (l : List (Fin SAMPLE_SIZE))
    (acc : State × List Event) :
    (l.foldl (recordIteration sensor target) acc).2 =
      acc.2 ++ (List.replicate l.length
        [Event.motionX, Event.motionY, Event.motionZ, Event.delay 100]).flatten := by
  induction l generalizing acc with
  | nil => simp
  | cons i l ih =>
    rw [List.foldl_cons, ih, recordIteration_events, List.length_cons, List.replicate_succ,
      List.flatten_cons, List.append_assoc]

theorem recordFold_target (sensor : Nat → ℚ) (target : Target) (l : List (Fin SAMPLE_SIZE))
    (hl : l.Nodup) (acc : State × List Event) (j : Fin SAMPLE_SIZE) :
    ((l.foldl (recordIteration sensor target) acc).1.movement target).x j =
        (if j ∈ l then sensor (acc.1.reads + 3 * l.indexOf j)
          else (acc.1.movement target).x j) ∧
    ((l.foldl (recordIteration sensor target) acc).1.movement target).y j =
        (if j ∈ l then sensor (acc.1.reads + 3 * l.indexOf j + 1)
          else (acc.1.movement target).y j) ∧
    ((l.foldl (recordIteration sensor target) acc).1.movement target).z j =
        (if j ∈ l then sensor (acc.1.reads + 3 * l.indexOf j + 2)
          else (acc.1.movement target).z j) := by
  induction l generalizing acc with
  | nil => simp
  | cons i l ih =>
    have hil : i ∉ l := (List.nodup_cons.mp hl).1
    have hl' : l.Nodup := (List.nodup_cons.mp hl).2
    rw [List.foldl_cons]
    obtain ⟨hx, hy, hz⟩ := ih hl' (recordIteration sensor target acc i)
    rw [hx, hy, hz, recordIteration_reads, recordIteration_target]
    by_cases hji : j = i
    · subst hji
      simp [hil]
    · have hij : i ≠ j := fun h => hji h.symm
      by_cases hjl : j ∈ l
      · have e : (i :: l).indexOf j = l.indexOf j + 1 := List.indexOf_cons_ne l hij
        simp only [hjl, List.mem_cons, or_true, if_true, e]
        refine ⟨?_, ?_, ?_⟩ <;> congr 1 <;> ring
      · simp [hjl, hji, Function.update_noteq hji]

theorem recordMovement_target (sensor : Nat → ℚ) (target : Target) (s : State) :
    (recordMovement sensor target s).1.movement target = specCapture sensor s.reads := by
  have h := fun j => recordFold_target sensor target (List.finRange SAMPLE_SIZE)
    (List.nodup_finRange SAMPLE_SIZE) (s, []) j
  simp only [List.mem_finRange, if_true, List.indexOf_finRange] at h
  unfold recordMovement specCapture
  generalize ((List.finRange SAMPLE_SIZE).foldl (recordIteration sensor target) (s, [])).1.movement
    target = m at h
  cases m with
  | mk mx my mz =>
    simp only [Movement.mk.injEq]
    exact ⟨funext fun j => (h j).1, funext fun j => (h j).2.1, funext fun j => (h j).2.2⟩

theorem recordMovement_events (sensor : Nat → ℚ) (target : Target) (s : State) :
    (recordMovement sensor target s).2 = captureEvents := by
  unfold recordMovement captureEvents
  rw [recordFold_events]
  simp

theorem recordMovement_reads (sensor : Nat → ℚ) (target : Target) (s : State) :
    (recordMovement sensor target s).1.reads = s.reads + 150 := by
  unfold recordMovement
  rw [recordFold_reads, List.length_finRange]
  rfl

theorem recordMovement_isLocked (sensor : Nat → ℚ) (target : Target) (s : State) :
    (recordMovement sensor target s).1.isLocked = s.isLocked := by
  unfold recordMovement
  rw [recordFold_isLocked]

theorem recordMovement_other (sensor : Nat → ℚ) (target other : Target) (h : other ≠ target)
    (s : State) :
    (recordMovement sensor target s).1.movement other = s.movement other := by
  unfold recordMovement
  rw [recordFold_other sensor target other h]

/-! ## The control loop -/

theorem loop_reset (sensor : Nat → ℚ) (s : State) :
    loop sensor true true s =
      ({ s with isLocked := false }, blinkLED 128 0 128 1500 ++ [Event.delay 100]) := by
  simp [loop]

theorem loop_record (sensor : Nat → ℚ) (s : State) :
    loop sensor true false s =
      ({ (recordMovement sensor Target.lockMovement s).1 with isLocked := true },
        blinkLED 0 255 0 100 ++ captureEvents ++ blinkLED 0 0 255 100 ++ [Event.delay 100]) := by
  simp [loop, recordMovement_events]

theorem loop_idle (sensor : Nat → ℚ) (button2 : Bool) (s : State)
    (h : button2 = true → s.isLocked = false) :
    loop sensor false button2 s = (s, [Event.delay 100]) := by
  cases button2
  · simp [loop]
  · simp [loop, h rfl]

theorem verify_test (sensor : Nat → ℚ) (s : State) :
    (recordMovement sensor Target.testMovement s).1.testMovement =
      specCapture sensor s.reads :=
  recordMovement_target sensor Target.testMovement s

theorem verify_key (sensor : Nat → ℚ) (s : State) :
    (recordMovement sensor Target.testMovement s).1.lockMovement = s.lockMovement :=
  recordMovement_other sensor Target.testMovement Target.lockMovement (by decide) s

theorem record_key (sensor : Nat → ℚ) (s : State) :
    (recordMovement sensor Target.lockMovement s).1.lockMovement =
      specCapture sensor s.reads :=
  recordMovement_target sensor Target.lockMovement s

theorem record_test (sensor : Nat → ℚ) (s : State) :
    (recordMovement sensor Target.lockMovement s).1.testMovement = s.testMovement :=
  recordMovement_other sensor Target.lockMovement Target.testMovement (by decide) s

theorem loop_verify (sensor : Nat → ℚ) (s : State) (h : s.isLocked = true) :
    loop sensor false true s =
      ((recordMovement sensor Target.testMovement s).1,
        blinkLED 255 255 0 100 ++ captureEvents ++
          compareMovementsOutput (specCapture sensor s.reads) s.lockMovement ++
          (if compareMovements (specCapture sensor s.reads) s.lockMovement ≥ SUCCESS_THRESHOLD
            then blinkLED 0 255 0 3000 else blinkLED 255 0 0 3000) ++
          [Event.delay 100]) := by
  simp only [loop, h, Bool.false_and, Bool.and_self, Bool.false_eq_true, if_false, if_true,
    recordMovement_events, verify_test, verify_key]

theorem captureEvents_pixel : captureEvents.filter Event.isPixel = [] := by decide

theorem captureEvents_print : captureEvents.filter Event.isPrint = [] := by decide

theorem captureEvents_delay : totalDelay captureEvents = 5000 := by decide

/-! ## Runs of the control loop -/

theorem run_snoc (sensor : Nat → ℚ) (inputs : List (Bool × Bool)) (b : Bool × Bool)
    (s : State) :
    run sensor (inputs ++ [b]) s = (loop sensor b.1 b.2 (run sensor inputs s)).1 := by
  unfold run
  rw [List.foldl_append]
  rfl

theorem loop_lockMovement_of_ne (sensor : Nat → ℚ) (b : Bool × Bool) (s : State)
    (h : b ≠ (true, false)) :
    (loop sensor b.1 b.2 s).1.lockMovement = s.lockMovement := by
  obtain ⟨b1, b2⟩ := b
  cases b1 <;> cases b2
  · rw [loop_idle sensor false s (by simp)]
  · cases hl : s.isLocked
    · rw [loop_idle sensor true s (fun _ => hl)]
    · rw [loop_verify sensor s hl]
      exact verify_key sensor s
  · exact absurd rfl h
  · rw [loop_reset]

theorem loop_isLocked_of_ne (sensor : Nat → ℚ) (b : Bool × Bool) (s : State)
    (h : b ≠ (true, false)) (hs : s.isLocked = false) :
    (loop sensor b.1 b.2 s).1.isLocked = false := by
  obtain ⟨b1, b2⟩ := b
  cases b1 <;> cases b2
  · rw [loop_idle sensor false s (by simp)]; exact hs
  · rw [loop_idle sensor true s (fun _ => hs)]; exact hs
  · exact absurd rfl h
  · rw [loop_reset]

theorem loop_print_locked (sensor : Nat → ℚ) (button1 button2 : Bool) (s : State)
    (h : (loop sensor button1 button2 s).2.filter Event.isPrint ≠ []) :
    s.isLocked = true := by
  cases hl : s.isLocked
  · exfalso
    apply h
    cases button1 <;> cases button2
    · rw [loop_idle sensor false s (by simp)]; rfl
    · rw [loop_idle sensor true s (fun _ => hl)]; rfl
    · rw [loop_record]
      simp only [List.filter_append, captureEvents_print]
      rfl
    · rw [loop_reset]; rfl
  · rfl

/-- Along every run that starts Unlocked, either the Key Trace is the trace captured by
the most recent record step, or no record step has happened and the state is still
Unlocked with the initial Key Trace. -/
theorem key_invariant (sensor : Nat → ℚ) (s0 : State) (hs0 : s0.isLocked = false)
    (inputs : List (Bool × Bool)) :
    (∃ pre post : List (Bool × Bool), inputs = pre ++ (true, false) :: post ∧
        (∀ p ∈ post, p ≠ (true, false)) ∧
        (run sensor inputs s0).lockMovement = specCapture sensor (run sensor pre s0).reads) ∨
    ((∀ p ∈ inputs, p ≠ (true, false)) ∧ (run sensor inputs s0).isLocked = false ∧
      (run sensor inputs s0).lockMovement = s0.lockMovement) := by
  induction inputs using List.reverseRecOn with
  | nil => exact Or.inr ⟨by simp, hs0, rfl⟩
  | append_singleton l b ih =>
    rw [run_snoc]
    by_cases hb : b = (true, false)
    · subst hb
      refine Or.inl ⟨l, [], rfl, by simp, ?_⟩
      rw [loop_record]
      exact record_key sensor (run sensor l s0)
    · rcases ih with ⟨pre, post, hsplit, hpost, hkey⟩ | ⟨hnone, hlock, hkey⟩
      · refine Or.inl ⟨pre, post ++ [b], ?_, ?_, ?_⟩
        · rw [hsplit]; simp
        · intro p hp
          rcases List.mem_append.mp hp with hp | hp
          · exact hpost p hp
          · rw [List.mem_singleton.mp hp]; exact hb
        · rw [loop_lockMovement_of_ne sensor b _ hb, hkey]
      · refine Or.inr ⟨?_, ?_, ?_⟩
        · intro p hp
          rcases List.mem_append.mp hp with hp | hp
          · exact hnone p hp
          · rw [List.mem_singleton.mp hp]; exact hb
        · exact loop_isLocked_of_ne sensor b _ hb hlock
        · rw [loop_lockMovement_of_ne sensor b _ hb, hkey]

/-! ## The claims, continued -/

/-- C11: if the test trace is the key `k` with `c` added to every x sample (y and z
identical), every smoothed distance `d_i` is `|c|` and `totalDiff = 50 * |c|`; with
the constant key (1,1,1) and `c = 10` every `d_i = 10 > 7`, `normalizedScore = 0`
and the verdict is failure. -/
theorem uniform_x_offset (k : Movement) (c : ℚ) :
    ((∀ i : Fin SAMPLE_SIZE, specDistance (offsetX k c) k i = |c|) ∧
      totalDiff (offsetX k c) k = 50 * |c|) ∧
    ((∀ i : Fin SAMPLE_SIZE, specDistance (offsetX (constMovement 1) 10) (constMovement 1) i = 10) ∧
      (∀ i : Fin SAMPLE_SIZE, specDistance (offsetX (constMovement 1) 10) (constMovement 1) i > 7) ∧
      normalizedScore (offsetX (constMovement 1) 10) (constMovement 1) = 0 ∧
      compareMovements (offsetX (constMovement 1) 10) (constMovement 1) = 0) := by
  have hd : ∀ (k : Movement) (c : ℚ) (i : Fin SAMPLE_SIZE),
      specDistance (offsetX k c) k i = |c| := by
    intro k c i
    rw [← num_eq_specDistance, num_offsetX]
  have htot : totalDiff (offsetX k c) k = 50 * |c| := by
    rw [totalDiff_eq_sum]
    simp [num_offsetX]
  have h10 : ∀ i : Fin SAMPLE_SIZE,
      specDistance (offsetX (constMovement 1) 10) (constMovement 1) i = 10 := by
    intro i
    rw [hd]; norm_num
  have hs : normalizedScore (offsetX (constMovement 1) 10) (constMovement 1) = 0 := by
    apply normalizedScore_eq_zero_of_high
    intro i
    rw [num_offsetX]; norm_num
  refine ⟨⟨hd k c, htot⟩, h10, ?_, hs, ?_⟩
  · intro i
    rw [h10]; norm_num
  · apply compareMovements_eq_zero_of_score
    rw [hs]; norm_num

/-- C12: in every controller state a loop step with both inputs active is a reset,
whatever `isLocked` is: the lock state becomes Unlocked, the only signal is
(128,0,128) for 1500 ms (followed by the 100 ms wait that ends every step), no
reading is taken, nothing is scored, and the Key Trace is unchanged. -/
theorem reset_step (sensor : Nat → ℚ) (s : State) :
    (loop sensor true true s).1 = { s with isLocked := false } ∧
    (loop sensor true true s).1.isLocked = false ∧
    (loop sensor true true s).1.lockMovement = s.lockMovement ∧
    (loop sensor true true s).1.reads = s.reads ∧
    (loop sensor true true s).2 =
      [Event.setPixelColor 0 128 0 128, Event.delay 1500, Event.clearPixels, Event.delay 100] ∧
    (loop sensor true true s).2 = blinkLED 128 0 128 1500 ++ [Event.delay 100] ∧
    (loop sensor true true s).2.filter Event.isMotion = [] ∧
    (loop sensor true true s).2.filter Event.isPrint = [] := by
  rw [loop_reset]
  exact ⟨rfl, rfl, rfl, rfl, rfl, rfl, rfl, rfl⟩

/-- C13: in every controller state a loop step with the first input active alone is a
record: afterwards the Key Trace is the newly captured trace, the lock state is
Locked, and the signals are exactly green for 100 ms before the capture and blue
for 100 ms after it. -/
theorem record_step (sensor : Nat → ℚ) (s : State) :
    (loop sensor true false s).1.lockMovement = specCapture sensor s.reads ∧
    (loop sensor true false s).1.isLocked = true ∧
    (loop sensor true false s).2 =
      blinkLED 0 255 0 100 ++ captureEvents ++ blinkLED 0 0 255 100 ++ [Event.delay 100] ∧
    (loop sensor true false s).2.filter Event.isPixel =
      [Event.setPixelColor 0 0 255 0, Event.clearPixels,
       Event.setPixelColor 0 0 0 255, Event.clearPixels] ∧
    (loop sensor true false s).2.filter Event.isPrint = [] := by
  rw [loop_record]
  refine ⟨record_key sensor s, rfl, rfl, ?_, ?_⟩
  · simp only [List.filter_append, captureEvents_pixel]
    rfl
  · simp only [List.filter_append, captureEvents_print]
    rfl

/-- C14: a loop step in which neither input is active, or in which the second input is
active alone while the state is Unlocked, takes no reading, scores nothing, drives
no signal and leaves the whole state unchanged; its only action is the 100 ms wait
that ends every step. -/
theorem idle_step (sensor : Nat → ℚ) (button2 : Bool) (s : State)
    (h : button2 = true → s.isLocked = false) :
    (loop sensor false button2 s).1 = s ∧
    (loop sensor false button2 s).2 = [Event.delay 100] ∧
    (loop sensor false button2 s).2.filter Event.isMotion = [] ∧
    (loop sensor false button2 s).2.filter Event.isPrint = [] ∧
    (loop sensor false button2 s).2.filter Event.isPixel = [] := by
  rw [loop_idle sensor button2 s h]
  exact ⟨rfl, rfl, rfl, rfl, rfl⟩

/-- C14 (witness): the second input alone in the initial, Unlocked state. -/
theorem idle_step_witness :
    (loop countingSensor false true initialState).1 = initialState ∧
    (loop countingSensor false true initialState).2 = [Event.delay 100] ∧
    (loop countingSensor false true initialState).2.filter Event.isMotion = [] ∧
    (loop countingSensor false true initialState).2.filter Event.isPrint = [] ∧
    (loop countingSensor false true initialState).2.filter Event.isPixel = [] :=
  idle_step countingSensor true initialState (fun _ => rfl)

/-- C15: from a Locked state a loop step with the second input active alone leaves the
lock state Locked and the Key Trace unchanged, for every captured test trace and so
for either verdict. -/
theorem verify_step_keeps_lock (sensor : Nat → ℚ) (s : State) (h : s.isLocked = true) :
    (loop sensor false true s).1.isLocked = true ∧
    (loop sensor false true s).1.lockMovement = s.lockMovement := by
  rw [loop_verify sensor s h]
  exact ⟨(recordMovement_isLocked sensor Target.testMovement s).trans h, verify_key sensor s⟩

/-- C15 (witness): a verify step in the state reached by one record step. -/
theorem verify_step_keeps_lock_witness :
    lockedExample.isLocked = true ∧
    (loop countingSensor false true lockedExample).1.isLocked = true ∧
    (loop countingSensor false true lockedExample).1.lockMovement =
      lockedExample.lockMovement :=
  ⟨rfl, verify_step_keeps_lock countingSensor lockedExample rfl⟩

/-- C17: with the sampler a sequence of readings, `recordMovement` runs exactly 50
iterations, each reading x, then y, then z once and then waiting 100 ms; the readings
of iteration `i` land at index `i` of the x, y and z channels; the waits add up to
5000 ms; and the lock state is not modified. -/
theorem recordMovement_captures (sensor : Nat → ℚ) (target : Target) (s : State) :
    (recordMovement sensor target s).2 =
      (List.replicate 50
        [Event.motionX, Event.motionY, Event.motionZ, Event.delay 100]).flatten ∧
    (∀ i : Fin SAMPLE_SIZE,
      ((recordMovement sensor target s).1.movement target).x i = sensor (s.reads + 3 * i.val) ∧
      ((recordMovement sensor target s).1.movement target).y i =
        sensor (s.reads + 3 * i.val + 1) ∧
      ((recordMovement sensor target s).1.movement target).z i =
        sensor (s.reads + 3 * i.val + 2)) ∧
    (recordMovement sensor target s).1.movement target = specCapture sensor s.reads ∧
    (recordMovement sensor target s).1.reads = s.reads + 150 ∧
    totalDelay (recordMovement sensor target s).2 = 5000 ∧
    (recordMovement sensor target s).1.isLocked = s.isLocked := by
  have hm := recordMovement_target sensor target s
  refine ⟨recordMovement_events sensor target s, ?_, hm, recordMovement_reads sensor target s,
    ?_, recordMovement_isLocked sensor target s⟩
  · intro i
    rw [hm]
    exact ⟨rfl, rfl, rfl⟩
  · rw [recordMovement_events]
    exact captureEvents_delay

/-- C18: the scorer is symmetric in its two arguments: `compareMovements a b` and
`compareMovements b a` compute the same `totalDiff`, the same `normalizedScore` and
the same verdict. -/
theorem scorer_symmetric (a b : Movement) :
    totalDiff a b = totalDiff b a ∧
    normalizedScore a b = normalizedScore b a ∧
    compareMovements a b = compareMovements b a := by
  have h : compareLoop a b = compareLoop b a := compareLoop_congr a b b a (num_symm a b)
  unfold totalDiff normalizedScore compareMovements
  rw [h]
  exact ⟨rfl, rfl, rfl⟩

/-- C19: the scorer depends only on the sample-wise difference of the two traces:
adding a trace `c` sample-wise to both `a` and `b` leaves `totalDiff`,
`normalizedScore` and the verdict unchanged. -/
theorem scorer_translation_invariant (a b c : Movement) :
    totalDiff (a.add c) (b.add c) = totalDiff a b ∧
    normalizedScore (a.add c) (b.add c) = normalizedScore a b ∧
    compareMovements (a.add c) (b.add c) = compareMovements a b := by
  have h : compareLoop (a.add c) (b.add c) = compareLoop a b :=
    compareLoop_congr _ _ _ _ (num_add a b c)
  unfold totalDiff normalizedScore compareMovements
  rw [h]
  exact ⟨rfl, rfl, rfl⟩

/-- C20: in every state reached from the initial state (Unlocked, no key recorded) by
a sequence of loop steps, if the lock state is Locked then a record step has
occurred and the Key Trace is the trace captured by the most recent one; and a step
that runs the scorer starts from a Locked state, so the scorer only ever sees such a
recorded Key Trace. -/
theorem locked_key_is_last_recorded (sensor : Nat → ℚ) (inputs : List (Bool × Bool)) :
    ((run sensor inputs initialState).isLocked = true →
      ∃ pre post : List (Bool × Bool), inputs = pre ++ (true, false) :: post ∧
        (∀ p ∈ post, p ≠ (true, false)) ∧
        (run sensor inputs initialState).lockMovement =
          specCapture sensor (run sensor pre initialState).reads) ∧
    (∀ button1 button2 : Bool,
      (loop sensor button1 button2 (run sensor inputs initialState)).2.filter Event.isPrint ≠ [] →
      (run sensor inputs initialState).isLocked = true ∧
      ∃ pre post : List (Bool × Bool), inputs = pre ++ (true, false) :: post ∧
        (∀ p ∈ post, p ≠ (true, false)) ∧
        (run sensor inputs initialState).lockMovement =
          specCapture sensor (run sensor pre initialState).reads) := by
  have hmain : (run sensor inputs initialState).isLocked = true →
      ∃ pre post : List (Bool × Bool), inputs = pre ++ (true, false) :: post ∧
        (∀ p ∈ post, p ≠ (true, false)) ∧
        (run sensor inputs initialState).lockMovement =
          specCapture sensor (run sensor pre initialState).reads := by
    intro hlocked
    rcases key_invariant sensor initialState rfl inputs with h | ⟨_, hfalse, _⟩
    · exact h
    · rw [hfalse] at hlocked
      exact absurd hlocked (by decide)
  refine ⟨hmain, fun button1 button2 hprint => ?_⟩
  have hl := loop_print_locked sensor button1 button2 _ hprint
  exact ⟨hl, hmain hl⟩

/-- C20 (witness): after one record step the state is Locked and the Key Trace is the
trace captured by that step. -/
theorem locked_key_is_last_recorded_witness :
    (run countingSensor [(true, false)] initialState).isLocked = true ∧
    ∃ pre post : List (Bool × Bool), [(true, false)] = pre ++ (true, false) :: post ∧
      (∀ p ∈ post, p ≠ (true, false)) ∧
      (run countingSensor [(true, false)] initialState).lockMovement =
        specCapture countingSensor (run countingSensor pre initialState).reads :=
  ⟨rfl, (locked_key_is_last_recorded countingSensor [(true, false)]).1 rfl⟩

end GestureLock
